import Mathlib

/-!
# Replicated collective ops: shape inference, sharding metadata, replica-equal
# propagation and the all-to-all layout contract

Shallow embedding of

* `src/custom_ops/replicatedallgather.cpp` (`ReplicatedAllGatherOp`), and
* `src/custom_ops/replicatedalltoallx.cpp` (`ReplicatedAllToAllOpx`,
  `ReplicatedAllToAllGradOpx`).

Conventions.

* `int` indices and `int64_t` extents are integers (`Int`); the unsigned fields
  of a replica grouping are naturals.  Every product the source computes in
  `int64_t` is reduced by `wrapInt64` to the two's-complement value an `int64_t`
  holds, so an extent written by `setup` is always the wrapped product.
* A tensor map (`input`, `output` of an op) is an association list from index
  to the `TensorInfo` of the connected tensor.  An access to an index with no
  tensor, or reading the element type of an info whose type was never set, is a
  failure: the embedded function returns `none`.
* Library types the source only passes around (`AliasModel`, `snap::Tensor`,
  `view::Region`) are type parameters.  Library functions the source calls
  without defining them are either parameters (the analysis proxy, the index
  constants, the base class's propagation rule) or small definitions whose doc
  comment says where they come from.
-/

namespace popart

/-! ## Data model -/

abbrev InIndex := Int
abbrev OutIndex := Int
abbrev Shape := List Int

/-- The value an `int64_t` holds after an arithmetic result `x`: `x` reduced
modulo `2^64` into the range from `-2^63` up to `2^63 - 1`. -/
def wrapInt64 (x : Int) : Int :=
  (x + 9223372036854775808) % 18446744073709551616 - 9223372036854775808

/-- Whether `x` is representable as an `int64_t`. -/
def fitsInt64 (x : Int) : Prop := -9223372036854775808 ≤ x ∧ x < 9223372036854775808

/-- Element types.  The four named ones are the ones the op definition in
`replicatedallgather.cpp` lists; `other` stands for the remaining enumerators of
the library's `DataType`. -/
inductive DataType where
  | FLOAT
  | FLOAT16
  | INT32
  | UINT32
  | other (code : Nat)
  deriving DecidableEq, Repr

/-- Tensor info: element type (unset on a default-constructed info), shape and
meta-shape. -/
structure TensorInfo where
  dataType : Option DataType
  shape : Shape
  metaShape : Shape
  deriving DecidableEq, Repr

namespace TensorInfo

/-- A default-constructed `TensorInfo`: no element type, empty shape, empty
meta-shape.  This is the value of `gatheredOutInfo` after the constructors that
take no target info. -/
def unset : TensorInfo := ⟨none, [], []⟩

/-- Modelled from the spec: `elementCount` of an info (the library's
`TensorInfo::nelms`), the product of the extents accumulated in `int64_t`; `1`
for a rank-0 shape. -/
def nelms (info : TensorInfo) : Int :=
  info.shape.foldl (fun acc d => wrapInt64 (acc * d)) 1

/-- The library's two-argument `TensorInfo::set(type, shape)`: replaces element
type and shape, keeps the meta-shape. -/
def set (info : TensorInfo) (type : DataType) (shape : Shape) : TensorInfo :=
  ⟨some type, shape, info.metaShape⟩

end TensorInfo

/-- Replica grouping value: `numReplicas`, `stride`, `groupSize`. -/
structure ReplicaGrouping where
  numReplicas : Nat
  stride : Nat
  groupSize : Nat
  deriving DecidableEq, Repr

namespace ReplicaGrouping

def getNumReplicas (g : ReplicaGrouping) : Nat := g.numReplicas

def getGroupSize (g : ReplicaGrouping) : Nat := g.groupSize

end ReplicaGrouping

/-- Index-keyed map (`std::map<int, _>`) as an association list. -/
abbrev IndexMap (α : Type) := List (Int × α)

namespace IndexMap

/-- Value stored at key `k`, if any. -/
def find? {α : Type} : IndexMap α → Int → Option α
  | [], _ => none
  | (k1, v) :: rest, k => if k1 = k then some v else find? rest k

/-- Whether key `k` is present. -/
def contains {α : Type} (m : IndexMap α) (k : Int) : Bool := (m.find? k).isSome

/-- Overwrite the value stored at an existing key `k` (other entries are kept). -/
def replace {α : Type} : IndexMap α → Int → α → IndexMap α
  | [], _, _ => []
  | (k1, v1) :: rest, k, v =>
    if k1 = k then (k1, v) :: replace rest k v else (k1, v1) :: replace rest k v

/-- The assignment `m[k] = v` of `std::map`: overwrite if `k` is present,
insert in key order otherwise. -/
def assign {α : Type} : IndexMap α → Int → α → IndexMap α
  | [], k, v => [(k, v)]
  | (k1, v1) :: rest, k, v =>
    if k < k1 then (k, v) :: (k1, v1) :: rest
    else if k = k1 then (k, v) :: rest
    else (k1, v1) :: assign rest k v

end IndexMap

/-- The index constants `getInIndex()`, `getCollectiveLinkedIndex()` and
`getOutIndex()`.  They are declared in the library's collectives header, not in
this source, so every definition below takes them as a parameter. -/
structure CollectiveIndices where
  getInIndex : InIndex
  getCollectiveLinkedIndex : InIndex
  getOutIndex : OutIndex
  deriving DecidableEq, Repr

/-- The values used in the concrete examples: input 0, linked input 1,
output 0. -/
def exampleIndices : CollectiveIndices := ⟨0, 1, 0⟩

/-- State of a `ReplicatedAllGatherOp`: the grouping owned by the collectives
base class, the cached `gatheredOutInfo`, and the infos of the tensors connected
at the op's input and output indices. -/
structure ReplicatedAllGatherOp where
  grouping : ReplicaGrouping
  gatheredOutInfo : TensorInfo
  input : IndexMap TensorInfo
  output : IndexMap TensorInfo
  deriving DecidableEq, Repr

namespace ReplicatedAllGatherOp

/-- Constructor `(opid, grouping, settings)` of lines 38-41: `gatheredOutInfo`
is default-constructed; no tensor is connected yet. -/
def create (grouping : ReplicaGrouping) : ReplicatedAllGatherOp :=
  ⟨grouping, TensorInfo.unset, [], []⟩

/-- Constructor `(opid, grouping, settings, gatheredOutInfo_)` of lines 43-48:
the target info is stored as given. -/
def createWithTarget (grouping : ReplicaGrouping) (gatheredOutInfo_ : TensorInfo) :
    ReplicatedAllGatherOp :=
  ⟨grouping, gatheredOutInfo_, [], []⟩

/-- Graph wiring (done by the enclosing graph, outside this source): connect
the given input and output tensors to the op. -/
def connect (op : ReplicatedAllGatherOp) (ins outs : IndexMap TensorInfo) :
    ReplicatedAllGatherOp :=
  ⟨op.grouping, op.gatheredOutInfo, ins, outs⟩

def getReplicaGrouping (op : ReplicatedAllGatherOp) : ReplicaGrouping := op.grouping

/-- Modelled from the spec: `getCommSize()` of the collectives base class
"returns groupSize" (as `int64_t`). -/
def getCommSize (op : ReplicatedAllGatherOp) : Int := (op.getReplicaGrouping.getGroupSize : Int)

/-- The library accessor `hasInput(index)`. -/
def hasInput (op : ReplicatedAllGatherOp) (index : InIndex) : Bool := op.input.contains index

/-- The library accessor `inInfo(index)` (the same object as
`inTensor(index)->info`); fails when no tensor is connected there. -/
def inInfo (op : ReplicatedAllGatherOp) (index : InIndex) : Option TensorInfo :=
  op.input.find? index

/-- The library accessor `outInfo(index)`, read side. -/
def outInfo (op : ReplicatedAllGatherOp) (index : OutIndex) : Option TensorInfo :=
  op.output.find? index

/-- The assignment `outInfo(index) = info`; fails when no tensor is connected at
`index`. -/
def setOutInfo (op : ReplicatedAllGatherOp) (index : OutIndex) (info : TensorInfo) :
    Option ReplicatedAllGatherOp :=
  if op.output.contains index then
    some ⟨op.grouping, op.gatheredOutInfo, op.input, op.output.replace index info⟩
  else none

/-- Embedding of `ReplicatedAllGatherOp::setup` (lines 54-72, the trace call
left out).  The local `shape` and the member `gatheredOutInfo` are threaded
through the conditional exactly as the source assigns them. -/
def setup (ix : CollectiveIndices) (op : ReplicatedAllGatherOp) :
    Option ReplicatedAllGatherOp :=
  let commSize := op.getCommSize
  match op.inInfo ix.getInIndex with
  | none => none
  | some inTensorInfo =>
    match inTensorInfo.dataType with
    | none => none
    | some type =>
      let shape := op.gatheredOutInfo.shape
      let st : TensorInfo × Shape :=
        if op.gatheredOutInfo.shape.isEmpty then
          let gathered := inTensorInfo
          let new_shape : Shape := List.replicate 1 (wrapInt64 (commSize * gathered.nelms))
          (gathered, new_shape)
        else (op.gatheredOutInfo, shape)
      let gathered := st.1.set type st.2
      setOutInfo ⟨op.grouping, gathered, op.input, op.output⟩ ix.getOutIndex gathered

/-- The output info observed after one run of `setup`. -/
def outInfoAfterSetup (ix : CollectiveIndices) (op : ReplicatedAllGatherOp) : Option TensorInfo :=
  (setup ix op).bind (fun op1 => op1.outInfo ix.getOutIndex)

/-- The graph changes the tensors connected at the op's inputs (or their
infos); the op's own members are untouched. -/
def withInput (op : ReplicatedAllGatherOp) (ins : IndexMap TensorInfo) : ReplicatedAllGatherOp :=
  ⟨op.grouping, op.gatheredOutInfo, ins, op.output⟩

/-- The output info observed after `setup` ran once, the input tensors were
changed to `ins`, and `setup` ran again. -/
def outInfoAfterResetup (ix : CollectiveIndices) (op : ReplicatedAllGatherOp)
    (ins : IndexMap TensorInfo) : Option TensorInfo :=
  (setup ix op).bind (fun op1 => outInfoAfterSetup ix (op1.withInput ins))

/-- Closed form of the info `setup` caches and writes to the output, given the
info and element type of the input tensor (used to state `setup_connected`). -/
def inferredInfo (op : ReplicatedAllGatherOp) (inTensorInfo : TensorInfo) (type : DataType) :
    TensorInfo :=
  if op.gatheredOutInfo.shape = [] then
    ⟨some type, [wrapInt64 (op.getCommSize * inTensorInfo.shape.prod)], inTensorInfo.metaShape⟩
  else
    ⟨some type, op.gatheredOutInfo.shape, op.gatheredOutInfo.metaShape⟩

/-- Example wiring: one input tensor of shape `[8]`, element type `FLOAT`, not
sharded. -/
def exampleInput : IndexMap TensorInfo := [(0, ⟨some DataType.FLOAT, [8], []⟩)]

/-- Example wiring: one output tensor whose info is still unset. -/
def exampleOutput : IndexMap TensorInfo := [(0, TensorInfo.unset)]

/-- Example wiring with a linked input at index 1 and a sharded input whose
meta-shape is `[32]`. -/
def exampleShardedInput : IndexMap TensorInfo :=
  [(0, ⟨some DataType.FLOAT, [8], [32]⟩), (1, ⟨some DataType.UINT32, [1], []⟩)]

/-- Sharding groups: a set of pairs (set of sharded input indices, set of
sharded output indices). -/
abbrev ReplicatedTensorShardingIndices := Finset (Finset InIndex × Finset OutIndex)

/-- Embedding of `getReplicatedTensorShardingIndices` (lines 98-101): the
braced initialiser with one pair, whose first set holds `getInIndex()` and whose
second set is empty. -/
def getReplicatedTensorShardingIndices (ix : CollectiveIndices) (_op : ReplicatedAllGatherOp) :
    ReplicatedTensorShardingIndices :=
  {(({ix.getInIndex} : Finset InIndex), (∅ : Finset OutIndex))}

/-- Embedding of `isConfigureOutputForReplicatedTensorSharding` (lines
103-107).  The right operand of the short-circuit disjunction is evaluated only
when there is no linked input, and fails when no tensor is connected at the
input index. -/
def isConfigureOutputForReplicatedTensorSharding (ix : CollectiveIndices)
    (op : ReplicatedAllGatherOp) : Option Bool :=
  if op.hasInput ix.getCollectiveLinkedIndex then some true
  else
    match op.inInfo ix.getInIndex with
    | none => none
    | some info => some (!info.metaShape.isEmpty)

end ReplicatedAllGatherOp

/-! ## Replica-equal analysis -/

abbrev ReplEqInputMap := IndexMap Bool
abbrev ReplEqOutputMap := IndexMap Bool
abbrev ReplEqModifiedInputMap := IndexMap Bool

/-- The analysis proxy, a capability supplied by the analysis pass: only the
method the source calls. -/
structure ReplicaEqualAnalysisProxy where
  getModifiedInputMapFromAliases : ReplicatedAllGatherOp → ReplEqOutputMap → ReplEqModifiedInputMap

/-- Type of the propagation rule of an op: alias model, input facts and proxy
to output facts and modified-input facts. -/
abbrev PropagationRule (AliasModel : Type) :=
  ReplicatedAllGatherOp → AliasModel → ReplEqInputMap → ReplicaEqualAnalysisProxy →
    ReplEqOutputMap × ReplEqModifiedInputMap

namespace Op

/-- Modelled from the spec: the base class's generic rule
`Op::fwdPropagateIsReplicaEqual` (library code, not in this source), "output
equal iff input already equal": every output index of the op is mapped to
whether all entries of the input map are replica-equal; the modified-input map
is the proxy's alias rule applied to that result. -/
def fwdPropagateIsReplicaEqual {AliasModel : Type} : PropagationRule AliasModel :=
  fun op _aliasModel inputMap proxy =>
    let allEqual := inputMap.all (fun e => e.2)
    let result : ReplEqOutputMap := op.output.map (fun e => (e.1, allEqual))
    (result, proxy.getModifiedInputMapFromAliases op result)

end Op

namespace ReplicatedAllGatherOp

/-- Embedding of `ReplicatedAllGatherOp::fwdPropagateIsReplicaEqual` (lines
109-133).  `base` is the rule of the base class that the `else` branch calls. -/
def fwdPropagateIsReplicaEqual {AliasModel : Type} (ix : CollectiveIndices)
    (base : PropagationRule AliasModel) : PropagationRule AliasModel :=
  fun op aliasModel inputMap proxy =>
    let numReplicas := op.getReplicaGrouping.getNumReplicas
    let groupSize := op.getReplicaGrouping.getGroupSize
    let isReductionOverAllReplicas : Bool := numReplicas == groupSize
    if isReductionOverAllReplicas then
      let result : ReplEqOutputMap := IndexMap.assign [] ix.getOutIndex true
      (result, proxy.getModifiedInputMapFromAliases op result)
    else
      base op aliasModel inputMap proxy

end ReplicatedAllGatherOp

/-- Example proxy: an op that aliases nothing, so no input is reported as
modified. -/
def exampleProxy : ReplicaEqualAnalysisProxy := ⟨fun _ _ => []⟩

/-! ## Lowering of the all-to-all exchange -/

namespace popx

/-- How an opx can provide the layout of one of its inputs (the library's
enumeration; the source names `CanUnwind`). -/
inductive InputCreatorType where
  | CanCreate
  | CanUnwind
  | CanCreateOrUnwind
  | CanDelegate
  | CanDelegateOrUnwind
  | Deadend
  deriving DecidableEq, Repr

/-- The lowering object of the all-to-all op: the op and device it was created
for. -/
structure ReplicatedAllToAllOpx (Op Devicex : Type) where
  op_p : Op
  dv_p : Devicex

/-- The lowering object of the grad variant: a subclass of
`ReplicatedAllToAllOpx` (lines 60-64 define only its constructor, which
delegates to the base constructor); it adds no member. -/
structure ReplicatedAllToAllGradOpx (Op Devicex : Type) extends ReplicatedAllToAllOpx Op Devicex

namespace ReplicatedAllToAllOpx

variable {Op Devicex : Type}

/-- Embedding of `getInputCreatorType` (lines 41-45). -/
def getInputCreatorType (_self : ReplicatedAllToAllOpx Op Devicex) (_index : InIndex) :
    InputCreatorType :=
  InputCreatorType.CanUnwind

/-- Embedding of `unwindTensorLayout` (lines 47-52). -/
def unwindTensorLayout {Tensor : Type} (_self : ReplicatedAllToAllOpx Op Devicex)
    (tensor : Tensor) (_inIndex : InIndex) (_outIndex : OutIndex) : Tensor :=
  tensor

/-- Embedding of `unwindRegion` (lines 54-58): the returned map builds the
vector holding one copy of its argument. -/
def unwindRegion {Region : Type} (_self : ReplicatedAllToAllOpx Op Devicex)
    (_inIndex : InIndex) (_outIndex : OutIndex) : Region → List Region :=
  fun r => List.replicate 1 r

end ReplicatedAllToAllOpx

end popx

/-! ## Auxiliary facts about the embedding -/

namespace IndexMap

theorem contains_iff_find {α : Type} (m : IndexMap α) (k : Int) :
    m.contains k = true ↔ ∃ v, m.find? k = some v := by
  unfold contains
  cases h : m.find? k <;> simp

theorem find_replace_self {α : Type} (m : IndexMap α) (k : Int) (v : α)
    (h : m.contains k = true) : (m.replace k v).find? k = some v := by
  induction m with
  | nil => simp [contains, find?] at h
  | cons e rest ih =>
    obtain ⟨k1, v1⟩ := e
    by_cases hk : k1 = k
    · simp [replace, find?, hk]
    · have hrest : contains rest k = true := by
        simpa [contains, find?, hk] using h
      simpa [replace, find?, hk] using ih hrest

theorem find_replace_ne {α : Type} (m : IndexMap α) (k j : Int) (v : α) (hne : j ≠ k) :
    (m.replace k v).find? j = m.find? j := by
  induction m with
  | nil => simp [replace, find?]
  | cons e rest ih =>
    obtain ⟨k1, v1⟩ := e
    by_cases hk : k1 = k
    · subst hk
      have hj : ¬ k1 = j := fun h => hne h.symm
      simp [replace, find?, hj, ih]
    · by_cases hj : k1 = j
      · subst hj
        simp [replace, find?, hk]
      · simp [replace, find?, hk, hj, ih]

theorem contains_replace {α : Type} (m : IndexMap α) (k j : Int) (v : α) :
    (m.replace k v).contains j = m.contains j := by
  induction m with
  | nil => simp [replace, contains, find?]
  | cons e rest ih =>
    obtain ⟨k1, v1⟩ := e
    simp only [contains] at ih
    by_cases hk : k1 = k
    · subst hk
      by_cases hj : k1 = j
      · subst hj
        simp [replace, contains, find?]
      · simp [replace, contains, find?, hj, ih]
    · by_cases hj : k1 = j
      · subst hj
        simp [replace, contains, find?, hk]
      · simp [replace, contains, find?, hk, hj, ih]

theorem replace_replace {α : Type} (m : IndexMap α) (k : Int) (v : α) :
    (m.replace k v).replace k v = m.replace k v := by
  induction m with
  | nil => simp [replace]
  | cons e rest ih =>
    obtain ⟨k1, v1⟩ := e
    by_cases hk : k1 = k
    · simp [replace, hk, ih]
    · simp [replace, hk, ih]

theorem find_map_const {α β : Type} (m : IndexMap α) (k : Int) (c : β) :
    find? (m.map (fun e => (e.1, c))) k = (m.find? k).map (fun _ => c) := by
  induction m with
  | nil => simp [find?]
  | cons e rest ih =>
    obtain ⟨k1, v1⟩ := e
    by_cases hk : k1 = k
    · simp [find?, hk]
    · simp [find?, hk, ih]

end IndexMap

theorem wrapInt64_of_fits (x : Int) (h : fitsInt64 x) : wrapInt64 x = x := by
  unfold fitsInt64 at h
  unfold wrapInt64
  omega

theorem wrapInt64_add_mul (x c : Int) :
    wrapInt64 (x + 18446744073709551616 * c) = wrapInt64 x := by
  unfold wrapInt64
  have : x + 18446744073709551616 * c + 9223372036854775808 =
      x + 9223372036854775808 + 18446744073709551616 * c := by ring
  rw [this, Int.add_mul_emod_self_left]

theorem wrapInt64_eq_add_mul (x : Int) :
    ∃ c : Int, wrapInt64 x = x + 18446744073709551616 * c := by
  refine ⟨-((x + 9223372036854775808) / 18446744073709551616), ?_⟩
  unfold wrapInt64
  have := Int.emod_add_ediv (x + 9223372036854775808) 18446744073709551616
  linarith

/-- Wrapping an inner factor does not change the wrapped product. -/
theorem wrapInt64_mul_wrap (a b : Int) : wrapInt64 (a * wrapInt64 b) = wrapInt64 (a * b) := by
  obtain ⟨c, hc⟩ := wrapInt64_eq_add_mul b
  rw [hc]
  have : a * (b + 18446744073709551616 * c) = a * b + 18446744073709551616 * (a * c) := by ring
  rw [this, wrapInt64_add_mul]

namespace TensorInfo

theorem wrap_mul_foldl (l : List Int) (g a : Int) :
    wrapInt64 (g * l.foldl (fun acc d => wrapInt64 (acc * d)) a) =
      wrapInt64 (g * (a * l.prod)) := by
  induction l generalizing g a with
  | nil => simp
  | cons d rest ih =>
    simp only [List.foldl, List.prod_cons]
    rw [ih]
    have h1 : g * (wrapInt64 (a * d) * rest.prod) = (g * rest.prod) * wrapInt64 (a * d) := by
      ring
    have h2 : g * (a * (d * rest.prod)) = (g * rest.prod) * (a * d) := by ring
    rw [h1, h2, wrapInt64_mul_wrap]

/-- The wrapped product of a factor with the element count is the wrapped
product of the factor with the product of the extents. -/
theorem wrap_mul_nelms (info : TensorInfo) (g : Int) :
    wrapInt64 (g * info.nelms) = wrapInt64 (g * info.shape.prod) := by
  simp [nelms, wrap_mul_foldl]

end TensorInfo

namespace ReplicatedAllGatherOp

/-- Closed form of `setup` on an op whose input and output tensors are connected
and whose input has an element type. -/
theorem setup_connected (ix : CollectiveIndices) (op : ReplicatedAllGatherOp)
    (inTensorInfo : TensorInfo) (type : DataType)
    (hin : op.inInfo ix.getInIndex = some inTensorInfo)
    (htype : inTensorInfo.dataType = some type)
    (hout : op.output.contains ix.getOutIndex = true) :
    setup ix op = some ⟨op.grouping, op.inferredInfo inTensorInfo type, op.input,
      op.output.replace ix.getOutIndex (op.inferredInfo inTensorInfo type)⟩ := by
  unfold setup
  simp only [hin, htype, setOutInfo, hout, if_true]
  by_cases hs : op.gatheredOutInfo.shape = []
  · simp [inferredInfo, hs, TensorInfo.set, TensorInfo.wrap_mul_nelms]
  · simp [inferredInfo, hs, TensorInfo.set]

/-- Whenever `setup` returns, the input and output tensors were connected and
the input had an element type. -/
theorem setup_some_inv (ix : CollectiveIndices) (op op1 : ReplicatedAllGatherOp)
    (h : setup ix op = some op1) :
    ∃ inTensorInfo type, op.inInfo ix.getInIndex = some inTensorInfo ∧
      inTensorInfo.dataType = some type ∧ op.output.contains ix.getOutIndex = true := by
  unfold setup at h
  cases hin : op.inInfo ix.getInIndex with
  | none => simp [hin] at h
  | some inTensorInfo =>
    cases htype : inTensorInfo.dataType with
    | none => simp [hin, htype] at h
    | some type =>
      refine ⟨inTensorInfo, type, rfl, htype, ?_⟩
      cases hout : op.output.contains ix.getOutIndex with
      | true => rfl
      | false => simp [hin, htype, setOutInfo, hout] at h

theorem inferredInfo_shape_ne_nil (op : ReplicatedAllGatherOp) (inTensorInfo : TensorInfo)
    (type : DataType) : (op.inferredInfo inTensorInfo type).shape ≠ [] := by
  unfold inferredInfo
  split
  · simp
  · assumption

theorem inferredInfo_dataType (op : ReplicatedAllGatherOp) (inTensorInfo : TensorInfo)
    (type : DataType) : (op.inferredInfo inTensorInfo type).dataType = some type := by
  unfold inferredInfo
  split <;> rfl

theorem outInfoAfterSetup_connected (ix : CollectiveIndices) (op : ReplicatedAllGatherOp)
    (inTensorInfo : TensorInfo) (type : DataType)
    (hin : op.inInfo ix.getInIndex = some inTensorInfo)
    (htype : inTensorInfo.dataType = some type)
    (hout : op.output.contains ix.getOutIndex = true) :
    outInfoAfterSetup ix op = some (op.inferredInfo inTensorInfo type) := by
  simp [outInfoAfterSetup, setup_connected ix op inTensorInfo type hin htype hout, outInfo,
    IndexMap.find_replace_self _ _ _ hout]

theorem contains_of_outInfo (op : ReplicatedAllGatherOp) (index : OutIndex) (o : TensorInfo)
    (h : op.outInfo index = some o) : op.output.contains index = true :=
  (IndexMap.contains_iff_find _ _).2 ⟨o, h⟩

/-- A second run of `setup` on the state left by a first run returns that same
state; a failed first run stays failed. -/
theorem setup_bind_setup (ix : CollectiveIndices) (op : ReplicatedAllGatherOp) :
    (setup ix op).bind (setup ix) = setup ix op := by
  cases h : setup ix op with
  | none => rfl
  | some op1 =>
    obtain ⟨inTensorInfo, type, hin, htype, hout⟩ := setup_some_inv ix op op1 h
    rw [setup_connected ix op inTensorInfo type hin htype hout] at h
    injection h with h
    subst h
    simp only [Option.some_bind]
    have hne := inferredInfo_shape_ne_nil op inTensorInfo type
    have hdt := inferredInfo_dataType op inTensorInfo type
    generalize op.inferredInfo inTensorInfo type = g at hne hdt
    have hout1 : IndexMap.contains (IndexMap.replace op.output ix.getOutIndex g)
        ix.getOutIndex = true := by
      rw [IndexMap.contains_replace]; exact hout
    have hstep := setup_connected ix
      ⟨op.grouping, g, op.input, IndexMap.replace op.output ix.getOutIndex g⟩
      inTensorInfo type hin htype hout1
    rw [hstep]
    have hinf : inferredInfo
        ⟨op.grouping, g, op.input, IndexMap.replace op.output ix.getOutIndex g⟩
        inTensorInfo type = g := by
      cases g with
      | mk d sh ms =>
        simp only at hne hdt
        simp [inferredInfo, hne, hdt]
    simp only [hinf, IndexMap.replace_replace]

end ReplicatedAllGatherOp

/-! ## Shape inference (`setup`) -/

namespace ReplicatedAllGatherOp

/-- The default shape in general: with an empty stored shape, the output extent
is the `int64_t` value of `G * N`, whether or not the product is
representable. -/
theorem outInfoAfterSetup_default (ix : CollectiveIndices) (op : ReplicatedAllGatherOp)
    (t : DataType) (s m : Shape) (o : TensorInfo)
    (hdef : op.gatheredOutInfo.shape = [])
    (hin : op.inInfo ix.getInIndex = some ⟨some t, s, m⟩)
    (hout : op.outInfo ix.getOutIndex = some o) :
    (outInfoAfterSetup ix op).map (fun i => (i.shape, i.dataType)) =
      some ([wrapInt64 ((op.grouping.groupSize : Int) * s.prod)], some t) := by
  rw [outInfoAfterSetup_connected ix op _ t hin rfl (contains_of_outInfo op _ o hout)]
  simp [inferredInfo, hdef, getCommSize, getReplicaGrouping, ReplicaGrouping.getGroupSize]

/-- C1, as stated, fails when `G * N` is not representable as an `int64_t`: with
group size 4 and an input of shape `[2^62]` (so `N = 2^62`), the product computed
on line 62 wraps and the output shape is `[0]`, not `[G * N] = [2^64]`. -/
theorem setup_default_shape_overflow_counterexample :
    (outInfoAfterSetup exampleIndices
        ((create ⟨4, 1, 4⟩).connect [(0, ⟨some DataType.FLOAT, [4611686018427387904], []⟩)]
          exampleOutput)).map (fun i => i.shape) = some [0] ∧
    (outInfoAfterSetup exampleIndices
        ((create ⟨4, 1, 4⟩).connect [(0, ⟨some DataType.FLOAT, [4611686018427387904], []⟩)]
          exampleOutput)).map (fun i => i.shape) ≠
      some [((4 : Nat) : Int) * List.prod [4611686018427387904]] := by
  decide

/-- C1 (amended: default gather shape, for a representable product).  For an op
whose stored `gatheredOutInfo` has an empty shape (as after the constructors
without a target), with group size `G`, an input tensor of element type `t` and
shape `s` of any rank (so `N = s.prod` elements; `N = 1` for a scalar, `N = 0`
when an extent is zero) and a connected output tensor: whenever `G * N` is
representable as an `int64_t`, `setup` succeeds and the output info has the
one-dimensional shape `[G * N]` and element type `t`.  Nothing is assumed about
`numReplicas`. -/
theorem setup_default_shape (ix : CollectiveIndices) (op : ReplicatedAllGatherOp)
    (t : DataType) (s m : Shape) (o : TensorInfo)
    (hdef : op.gatheredOutInfo.shape = [])
    (hin : op.inInfo ix.getInIndex = some ⟨some t, s, m⟩)
    (hout : op.outInfo ix.getOutIndex = some o)
    (hfit : fitsInt64 ((op.grouping.groupSize : Int) * s.prod)) :
    (outInfoAfterSetup ix op).map (fun i => (i.shape, i.dataType)) =
      some ([(op.grouping.groupSize : Int) * s.prod], some t) := by
  rw [outInfoAfterSetup_default ix op t s m o hdef hin hout, wrapInt64_of_fits _ hfit]

/-- Witness for C1 (amended): 4 replicas, input `[8]` of `FLOAT`; group size 4
gives `[32]` of `FLOAT`, group size 2 gives `[16]` of `FLOAT`. -/
theorem setup_default_shape_witness :
    (outInfoAfterSetup exampleIndices
        ((create ⟨4, 1, 4⟩).connect exampleInput exampleOutput)).map
        (fun i => (i.shape, i.dataType)) = some ([32], some DataType.FLOAT) ∧
    (outInfoAfterSetup exampleIndices
        ((create ⟨4, 1, 2⟩).connect exampleInput exampleOutput)).map
        (fun i => (i.shape, i.dataType)) = some ([16], some DataType.FLOAT) :=
  ⟨setup_default_shape exampleIndices ((create ⟨4, 1, 4⟩).connect exampleInput exampleOutput)
      DataType.FLOAT [8] [] TensorInfo.unset rfl rfl rfl ⟨by decide, by decide⟩,
   setup_default_shape exampleIndices ((create ⟨4, 1, 2⟩).connect exampleInput exampleOutput)
      DataType.FLOAT [8] [] TensorInfo.unset rfl rfl rfl ⟨by decide, by decide⟩⟩

/-- C2, as stated, fails for a target of rank 0: a target info with the empty
shape `[]` passed to the target-taking constructor is indistinguishable from no
target, so with group size 4 and input `[8]` the inferred output shape is the
default `[32]`, not the target shape `[]`. -/
theorem setup_explicit_shape_rank0_counterexample :
    (outInfoAfterSetup exampleIndices
        ((createWithTarget ⟨4, 1, 4⟩ ⟨some DataType.FLOAT, [], []⟩).connect
          exampleInput exampleOutput)).map (fun i => i.shape) = some [32] ∧
    (outInfoAfterSetup exampleIndices
        ((createWithTarget ⟨4, 1, 4⟩ ⟨some DataType.FLOAT, [], []⟩).connect
          exampleInput exampleOutput)).map (fun i => i.shape) ≠
      some (TensorInfo.shape ⟨some DataType.FLOAT, [], []⟩) := by
  decide

/-- C2 (amended: explicit non-empty gather shape is used verbatim).  For every
target info whose shape `S` has rank at least one (any extents), passed to the
target-taking constructor, for every grouping and every connected input tensor
with an element type, `setup` succeeds and both the output shape and the cached
shape are exactly `S`; the default `[G * N]` plays no role. -/
theorem setup_explicit_shape (ix : CollectiveIndices) (grouping : ReplicaGrouping)
    (target : TensorInfo) (ins outs : IndexMap TensorInfo)
    (t : DataType) (s m : Shape) (o : TensorInfo)
    (hne : target.shape ≠ [])
    (hin : ins.find? ix.getInIndex = some ⟨some t, s, m⟩)
    (hout : outs.find? ix.getOutIndex = some o) :
    (outInfoAfterSetup ix ((createWithTarget grouping target).connect ins outs)).map
        (fun i => i.shape) = some target.shape ∧
    (setup ix ((createWithTarget grouping target).connect ins outs)).map
        (fun op1 => op1.gatheredOutInfo.shape) = some target.shape := by
  have hc : ((createWithTarget grouping target).connect ins outs).output.contains
      ix.getOutIndex = true := (IndexMap.contains_iff_find _ _).2 ⟨o, hout⟩
  have hi : ((createWithTarget grouping target).connect ins outs).inInfo ix.getInIndex =
      some ⟨some t, s, m⟩ := hin
  constructor
  · rw [outInfoAfterSetup_connected ix _ ⟨some t, s, m⟩ t hi rfl hc]
    simp [inferredInfo, createWithTarget, connect, hne]
  · rw [setup_connected ix _ ⟨some t, s, m⟩ t hi rfl hc]
    simp [inferredInfo, createWithTarget, connect, hne]

/-- Witness for C2 (amended): target shape `[2, 16]` (element type unset) with
group size 4 and input `[8]`, whose default would be `[32]`. -/
theorem setup_explicit_shape_witness :
    (outInfoAfterSetup exampleIndices
        ((createWithTarget ⟨4, 1, 4⟩ ⟨none, [2, 16], []⟩).connect
          exampleInput exampleOutput)).map (fun i => i.shape) = some [2, 16] ∧
    (setup exampleIndices
        ((createWithTarget ⟨4, 1, 4⟩ ⟨none, [2, 16], []⟩).connect
          exampleInput exampleOutput)).map (fun op1 => op1.gatheredOutInfo.shape) =
      some [2, 16] :=
  setup_explicit_shape exampleIndices ⟨4, 1, 4⟩ ⟨none, [2, 16], []⟩ exampleInput exampleOutput
    DataType.FLOAT [8] [] TensorInfo.unset (by decide) rfl rfl

/-- C5 (shape inference is idempotent).  For every op state (nothing is assumed
about `gatheredOutInfo`, so with or without a target shape), every grouping and
every fixed input info with an element type, `setup` succeeds with a state `op1`
on which a second run of `setup` succeeds with `op1` again (same output info,
same cached `gatheredOutInfo`).  The run leaves the grouping, the input infos and
every output entry other than the one at `getOutIndex()` unchanged; the entry at
`getOutIndex()` becomes the cached `gatheredOutInfo`. -/
theorem setup_idempotent (ix : CollectiveIndices) (op : ReplicatedAllGatherOp)
    (inTensorInfo : TensorInfo) (type : DataType) (o : TensorInfo)
    (hin : op.inInfo ix.getInIndex = some inTensorInfo)
    (htype : inTensorInfo.dataType = some type)
    (hout : op.outInfo ix.getOutIndex = some o) :
    ∃ op1, setup ix op = some op1 ∧ setup ix op1 = some op1 ∧
      (setup ix op).bind (setup ix) = setup ix op ∧
      outInfoAfterSetup ix op1 = outInfoAfterSetup ix op ∧
      op1.grouping = op.grouping ∧ op1.input = op.input ∧
      op1.outInfo ix.getOutIndex = some op1.gatheredOutInfo ∧
      (∀ j, j ≠ ix.getOutIndex → op1.outInfo j = op.outInfo j) := by
  have hc := contains_of_outInfo op _ o hout
  have h1 := setup_connected ix op inTensorInfo type hin htype hc
  have hb := setup_bind_setup ix op
  refine ⟨_, h1, ?_, hb, ?_, rfl, rfl, ?_, ?_⟩
  · rw [h1] at hb
    simpa using hb
  · rw [h1] at hb
    simp only [Option.some_bind] at hb
    simp [outInfoAfterSetup, hb, h1]
  · simp [outInfo, IndexMap.find_replace_self _ _ _ hc]
  · intro j hj
    simp [outInfo, IndexMap.find_replace_ne _ _ _ _ hj]

/-- Witness for C5: group size 4 of 4 replicas, no target, input `[8]` of
`FLOAT`. -/
theorem setup_idempotent_witness :
    ∃ op1, setup exampleIndices ((create ⟨4, 1, 4⟩).connect exampleInput exampleOutput) =
        some op1 ∧ setup exampleIndices op1 = some op1 ∧
      (setup exampleIndices ((create ⟨4, 1, 4⟩).connect exampleInput exampleOutput)).bind
        (setup exampleIndices) =
        setup exampleIndices ((create ⟨4, 1, 4⟩).connect exampleInput exampleOutput) ∧
      outInfoAfterSetup exampleIndices op1 =
        outInfoAfterSetup exampleIndices
          ((create ⟨4, 1, 4⟩).connect exampleInput exampleOutput) ∧
      op1.grouping = ((create ⟨4, 1, 4⟩).connect exampleInput exampleOutput).grouping ∧
      op1.input = ((create ⟨4, 1, 4⟩).connect exampleInput exampleOutput).input ∧
      op1.outInfo exampleIndices.getOutIndex = some op1.gatheredOutInfo ∧
      (∀ j, j ≠ exampleIndices.getOutIndex → op1.outInfo j =
        ((create ⟨4, 1, 4⟩).connect exampleInput exampleOutput).outInfo j) :=
  setup_idempotent exampleIndices ((create ⟨4, 1, 4⟩).connect exampleInput exampleOutput)
    ⟨some DataType.FLOAT, [8], []⟩ DataType.FLOAT TensorInfo.unset rfl rfl rfl

/-- The frozen default shape in general: the second run, after the input
changed, reports the extent the first run stored, the `int64_t` value of
`G * N1`, together with the element type of the new input. -/
theorem outInfoAfterResetup_default (ix : CollectiveIndices) (op : ReplicatedAllGatherOp)
    (t1 t2 : DataType) (s1 s2 m1 m2 : Shape) (o : TensorInfo) (ins2 : IndexMap TensorInfo)
    (hdef : op.gatheredOutInfo.shape = [])
    (hin1 : op.inInfo ix.getInIndex = some ⟨some t1, s1, m1⟩)
    (hout : op.outInfo ix.getOutIndex = some o)
    (hin2 : ins2.find? ix.getInIndex = some ⟨some t2, s2, m2⟩) :
    (outInfoAfterResetup ix op ins2).map (fun i => (i.shape, i.dataType)) =
      some ([wrapInt64 ((op.grouping.groupSize : Int) * s1.prod)], some t2) := by
  have hc := contains_of_outInfo op _ o hout
  have h1 := setup_connected ix op ⟨some t1, s1, m1⟩ t1 hin1 rfl hc
  have hc2 : (withInput ⟨op.grouping, op.inferredInfo ⟨some t1, s1, m1⟩ t1, op.input,
      op.output.replace ix.getOutIndex (op.inferredInfo ⟨some t1, s1, m1⟩ t1)⟩
      ins2).output.contains ix.getOutIndex = true := by
    simp only [withInput]
    rw [IndexMap.contains_replace]
    exact hc
  have hi2 : (withInput ⟨op.grouping, op.inferredInfo ⟨some t1, s1, m1⟩ t1, op.input,
      op.output.replace ix.getOutIndex (op.inferredInfo ⟨some t1, s1, m1⟩ t1)⟩
      ins2).inInfo ix.getInIndex = some ⟨some t2, s2, m2⟩ := hin2
  simp only [outInfoAfterResetup, h1, Option.some_bind]
  rw [outInfoAfterSetup_connected ix _ ⟨some t2, s2, m2⟩ t2 hi2 rfl hc2]
  simp [inferredInfo, withInput, hdef, getCommSize, getReplicaGrouping,
    ReplicaGrouping.getGroupSize]

/-- C10, as stated, fails when `G * N1` is not representable as an `int64_t`:
with group size 4, a first input of shape `[2^62]` and then an input `[3]` of
`INT32`, the second run's output shape is the wrapped extent `[0]` stored by the
first run, not `[G * N1] = [2^64]`. -/
theorem setup_default_frozen_overflow_counterexample :
    (outInfoAfterResetup exampleIndices
        ((create ⟨4, 1, 4⟩).connect [(0, ⟨some DataType.FLOAT, [4611686018427387904], []⟩)]
          exampleOutput)
        [(0, ⟨some DataType.INT32, [3], []⟩)]).map (fun i => i.shape) = some [0] ∧
    (outInfoAfterResetup exampleIndices
        ((create ⟨4, 1, 4⟩).connect [(0, ⟨some DataType.FLOAT, [4611686018427387904], []⟩)]
          exampleOutput)
        [(0, ⟨some DataType.INT32, [3], []⟩)]).map (fun i => i.shape) ≠
      some [((4 : Nat) : Int) * List.prod [4611686018427387904]] := by
  decide

/-- C10 (amended: the default shape is frozen by the first inference, for a
representable product).  For an op whose stored `gatheredOutInfo` has an empty
shape, with group size `G`: if `setup` runs while the input has shape `s1`
(`N1 = s1.prod` elements) with `G * N1` representable as an `int64_t`, the input
tensor info is then changed to element type `t2` and shape `s2`, and `setup` runs
again, the second run succeeds and its output shape is `[G * N1]`, whatever `s2`
is, while its output element type is `t2`. -/
theorem setup_default_frozen (ix : CollectiveIndices) (op : ReplicatedAllGatherOp)
    (t1 t2 : DataType) (s1 s2 m1 m2 : Shape) (o : TensorInfo) (ins2 : IndexMap TensorInfo)
    (hdef : op.gatheredOutInfo.shape = [])
    (hin1 : op.inInfo ix.getInIndex = some ⟨some t1, s1, m1⟩)
    (hout : op.outInfo ix.getOutIndex = some o)
    (hin2 : ins2.find? ix.getInIndex = some ⟨some t2, s2, m2⟩)
    (hfit : fitsInt64 ((op.grouping.groupSize : Int) * s1.prod)) :
    (outInfoAfterResetup ix op ins2).map (fun i => (i.shape, i.dataType)) =
      some ([(op.grouping.groupSize : Int) * s1.prod], some t2) := by
  rw [outInfoAfterResetup_default ix op t1 t2 s1 s2 m1 m2 o ins2 hdef hin1 hout hin2,
    wrapInt64_of_fits _ hfit]

/-- Witness for C10 (amended): group size 4, first input `[8]` of `FLOAT`, then
the input becomes `[3]` of `INT32`: the second run gives `[32]` of `INT32`, not
`[12]`. -/
theorem setup_default_frozen_witness :
    (outInfoAfterResetup exampleIndices ((create ⟨4, 1, 4⟩).connect exampleInput exampleOutput)
        [(0, ⟨some DataType.INT32, [3], []⟩)]).map (fun i => (i.shape, i.dataType)) =
      some ([32], some DataType.INT32) :=
  setup_default_frozen exampleIndices ((create ⟨4, 1, 4⟩).connect exampleInput exampleOutput)
    DataType.FLOAT DataType.INT32 [8] [3] [] [] TensorInfo.unset
    [(0, ⟨some DataType.INT32, [3], []⟩)] rfl rfl rfl rfl ⟨by decide, by decide⟩

/-! ## Sharding metadata -/

/-- C7 (gather sharding annotation is constant).  For every op state (any
grouping, any `gatheredOutInfo`, any connected tensors),
`getReplicatedTensorShardingIndices` is the set with exactly one sharding group,
whose input-index set is the singleton of `getInIndex()` and whose output-index
set is empty. -/
theorem sharding_indices_constant (ix : CollectiveIndices) (op : ReplicatedAllGatherOp) :
    getReplicatedTensorShardingIndices ix op =
      {(({ix.getInIndex} : Finset InIndex), (∅ : Finset OutIndex))} ∧
    (getReplicatedTensorShardingIndices ix op).card = 1 ∧
    ∀ g ∈ getReplicatedTensorShardingIndices ix op,
      g.1 = ({ix.getInIndex} : Finset InIndex) ∧ g.2 = (∅ : Finset OutIndex) := by
  refine ⟨rfl, by simp [getReplicatedTensorShardingIndices], ?_⟩
  intro g hg
  simp only [getReplicatedTensorShardingIndices, Finset.mem_singleton] at hg
  subst hg
  exact ⟨rfl, rfl⟩

/-- C8 (output-configuration predicate).  For every op state, the predicate
returns `true` iff an input is connected at `getCollectiveLinkedIndex()` or the
tensor at `getInIndex()` has a non-empty meta-shape, and returns `false` iff no
input is connected at the linked index and the tensor at `getInIndex()` has an
empty meta-shape.  The result is the same for every op state with the same
connected inputs, whatever its grouping, `gatheredOutInfo` and outputs. -/
theorem isConfigureOutput_iff (ix : CollectiveIndices) (op : ReplicatedAllGatherOp) :
    (isConfigureOutputForReplicatedTensorSharding ix op = some true ↔
      (op.hasInput ix.getCollectiveLinkedIndex = true ∨
        ∃ info, op.inInfo ix.getInIndex = some info ∧ info.metaShape ≠ [])) ∧
    (isConfigureOutputForReplicatedTensorSharding ix op = some false ↔
      (op.hasInput ix.getCollectiveLinkedIndex = false ∧
        ∃ info, op.inInfo ix.getInIndex = some info ∧ info.metaShape = [])) ∧
    (∀ (grouping : ReplicaGrouping) (gathered : TensorInfo) (outs : IndexMap TensorInfo),
      isConfigureOutputForReplicatedTensorSharding ix ⟨grouping, gathered, op.input, outs⟩ =
        isConfigureOutputForReplicatedTensorSharding ix op) := by
  refine ⟨?_, ?_, fun _ _ _ => rfl⟩
  · unfold isConfigureOutputForReplicatedTensorSharding
    cases hl : op.hasInput ix.getCollectiveLinkedIndex
    · cases hin : op.inInfo ix.getInIndex <;> simp [List.isEmpty_iff]
    · simp
  · unfold isConfigureOutputForReplicatedTensorSharding
    cases hl : op.hasInput ix.getCollectiveLinkedIndex
    · cases hin : op.inInfo ix.getInIndex <;> simp [List.isEmpty_iff]
    · simp

/-- Witness for C8: an unsharded input without linked input gives `false`; a
sharded input with a linked input gives `true`. -/
theorem isConfigureOutput_iff_witness :
    isConfigureOutputForReplicatedTensorSharding exampleIndices
        ((create ⟨4, 1, 4⟩).connect exampleInput exampleOutput) = some false ∧
    isConfigureOutputForReplicatedTensorSharding exampleIndices
        ((create ⟨4, 1, 4⟩).connect exampleShardedInput exampleOutput) = some true :=
  ⟨(isConfigureOutput_iff exampleIndices
      ((create ⟨4, 1, 4⟩).connect exampleInput exampleOutput)).2.1.2
      ⟨rfl, ⟨some DataType.FLOAT, [8], []⟩, rfl, rfl⟩,
   (isConfigureOutput_iff exampleIndices
      ((create ⟨4, 1, 4⟩).connect exampleShardedInput exampleOutput)).1.2 (Or.inl rfl)⟩

/-! ## Replica-equal propagation -/

/-- C3 (full-group gather is unconditionally replica-equal).  For every op whose
grouping has `groupSize = numReplicas`, every base rule, alias model, input map
and proxy, the returned output map is the one-entry map sending `getOutIndex()`
to `true`, and the returned modified-input map is the proxy's
`getModifiedInputMapFromAliases` applied to this op and that output map. -/
theorem fwdPropagate_full_group {AliasModel : Type} (ix : CollectiveIndices)
    (base : PropagationRule AliasModel) (op : ReplicatedAllGatherOp) (aliasModel : AliasModel)
    (inputMap : ReplEqInputMap) (proxy : ReplicaEqualAnalysisProxy)
    (h : op.grouping.groupSize = op.grouping.numReplicas) :
    (fwdPropagateIsReplicaEqual ix base op aliasModel inputMap proxy).1 =
      [(ix.getOutIndex, true)] ∧
    (fwdPropagateIsReplicaEqual ix base op aliasModel inputMap proxy).1.length = 1 ∧
    (fwdPropagateIsReplicaEqual ix base op aliasModel inputMap proxy).2 =
      proxy.getModifiedInputMapFromAliases op
        (fwdPropagateIsReplicaEqual ix base op aliasModel inputMap proxy).1 := by
  simp [fwdPropagateIsReplicaEqual, getReplicaGrouping, ReplicaGrouping.getNumReplicas,
    ReplicaGrouping.getGroupSize, h, IndexMap.assign]

/-- Witness for C3: 4 replicas, group size 4, the input marked not
replica-equal: the output is reported replica-equal. -/
theorem fwdPropagate_full_group_witness :
    (fwdPropagateIsReplicaEqual exampleIndices Op.fwdPropagateIsReplicaEqual
        ((create ⟨4, 1, 4⟩).connect exampleInput exampleOutput) ()
        [(0, false)] exampleProxy).1 = [(0, true)] :=
  (fwdPropagate_full_group exampleIndices Op.fwdPropagateIsReplicaEqual
    ((create ⟨4, 1, 4⟩).connect exampleInput exampleOutput) () [(0, false)] exampleProxy
    rfl).1

/-- C4 (strict-subgroup gather falls back to the generic rule).  For every op
whose grouping has `groupSize ≠ numReplicas`, every alias model, input map and
proxy: whatever the base rule is, the op's rule returns exactly the pair the base
rule returns on the same arguments; and with the base rule as the spec describes
it, an op with a connected output reports that output replica-equal iff every
entry of the input map is replica-equal. -/
theorem fwdPropagate_strict_subgroup {AliasModel : Type} (ix : CollectiveIndices)
    (op : ReplicatedAllGatherOp) (aliasModel : AliasModel)
    (inputMap : ReplEqInputMap) (proxy : ReplicaEqualAnalysisProxy) (o : TensorInfo)
    (h : op.grouping.groupSize ≠ op.grouping.numReplicas)
    (hout : op.outInfo ix.getOutIndex = some o) :
    (∀ base : PropagationRule AliasModel,
      fwdPropagateIsReplicaEqual ix base op aliasModel inputMap proxy =
        base op aliasModel inputMap proxy) ∧
    IndexMap.find?
        (fwdPropagateIsReplicaEqual ix Op.fwdPropagateIsReplicaEqual op aliasModel inputMap
          proxy).1 ix.getOutIndex = some (inputMap.all (fun e => e.2)) ∧
    (IndexMap.find?
        (fwdPropagateIsReplicaEqual ix Op.fwdPropagateIsReplicaEqual op aliasModel inputMap
          proxy).1 ix.getOutIndex = some true ↔ ∀ e ∈ inputMap, e.2 = true) := by
  have hne : ¬ op.grouping.numReplicas = op.grouping.groupSize := fun e => h e.symm
  have hbase : ∀ base : PropagationRule AliasModel,
      fwdPropagateIsReplicaEqual ix base op aliasModel inputMap proxy =
        base op aliasModel inputMap proxy := by
    intro base
    simp [fwdPropagateIsReplicaEqual, getReplicaGrouping, ReplicaGrouping.getNumReplicas,
      ReplicaGrouping.getGroupSize, hne]
  have hfind : IndexMap.find?
      (fwdPropagateIsReplicaEqual ix Op.fwdPropagateIsReplicaEqual op aliasModel inputMap
        proxy).1 ix.getOutIndex = some (inputMap.all (fun e => e.2)) := by
    rw [hbase]
    simp only [Op.fwdPropagateIsReplicaEqual]
    rw [IndexMap.find_map_const]
    have : IndexMap.find? op.output ix.getOutIndex = some o := hout
    simp [this]
  refine ⟨hbase, hfind, ?_⟩
  rw [hfind]
  simp [List.all_eq_true]

/-- Witness for C4: 4 replicas in two groups of 2, the input marked not
replica-equal: the output is reported not replica-equal. -/
theorem fwdPropagate_strict_subgroup_witness :
    IndexMap.find?
        (fwdPropagateIsReplicaEqual exampleIndices Op.fwdPropagateIsReplicaEqual
          ((create ⟨4, 1, 2⟩).connect exampleInput exampleOutput) ()
          [(0, false)] exampleProxy).1 exampleIndices.getOutIndex = some false :=
  (fwdPropagate_strict_subgroup exampleIndices
    ((create ⟨4, 1, 2⟩).connect exampleInput exampleOutput) () [(0, false)] exampleProxy
    TensorInfo.unset (by decide) rfl).2.1

end ReplicatedAllGatherOp

/-! ## Layout contract of the all-to-all lowering -/

namespace popx

/-- C9 (exchange layout contract is the identity).  For the all-to-all lowering
object, and for the grad variant through the base object it inherits from:
`getInputCreatorType` is `CanUnwind` at every input index, `unwindTensorLayout`
returns its tensor argument at every pair of indices, and the region map
returned by `unwindRegion` sends every region `r` to the one-element list
`[r]`. -/
theorem alltoall_layout_contract_identity {Op Devicex Tensor Region : Type}
    (opx : ReplicatedAllToAllOpx Op Devicex) (gradOpx : ReplicatedAllToAllGradOpx Op Devicex) :
    (∀ index : InIndex, opx.getInputCreatorType index = InputCreatorType.CanUnwind) ∧
    (∀ (tensor : Tensor) (i : InIndex) (o : OutIndex), opx.unwindTensorLayout tensor i o = tensor) ∧
    (∀ (i : InIndex) (o : OutIndex) (r : Region), opx.unwindRegion i o r = [r]) ∧
    (∀ index : InIndex,
      gradOpx.toReplicatedAllToAllOpx.getInputCreatorType index = InputCreatorType.CanUnwind) ∧
    (∀ (tensor : Tensor) (i : InIndex) (o : OutIndex),
      gradOpx.toReplicatedAllToAllOpx.unwindTensorLayout tensor i o = tensor) ∧
    (∀ (i : InIndex) (o : OutIndex) (r : Region),
      gradOpx.toReplicatedAllToAllOpx.unwindRegion i o r = [r]) :=
  ⟨fun _ => rfl, fun _ _ _ => rfl, fun _ _ _ => rfl, fun _ => rfl, fun _ _ _ => rfl,
    fun _ _ _ => rfl⟩

end popx

end popart
